import Mathlib

/-!
Shallow embedding of `src/Tools/generate_meshlets.py`.

The source file defines a single function `generate_meshlets(vertices,
indices, max_vertices=64, max_triangles=126)`.  Its body builds one
record (the local variable `dummy_meshlet`) from the first
`max_vertices` vertex positions, the first `max_triangles * 3` index
entries, and the constant cone `[0, 1, 0, 0.5]`, appends it to a fresh
list and returns that list.  No validation of the input buffers or of
the configuration occurs anywhere in the function.

Vertex positions are modelled as rational triples; the function never
performs arithmetic on them (it only slices the buffer), so exactness
of the scalar type is irrelevant to the embedding of the code itself.
Rationals also let the geometric side conditions of the specification
(face normals via cross products, dot products against the cone axis)
be evaluated exactly on integer-coordinate witnesses.
-/

/-- A vertex position: three scalar coordinates, as in the numpy
`(n, 3)` vertex buffer of the source. -/
structure Vec3 where
  x : ℚ
  y : ℚ
  z : ℚ
deriving DecidableEq

/-- The meshlet record built by `generate_meshlets`: the Python dict
with keys `"vertices"` (a slice of the position buffer), `"indices"`
(a slice of the global index buffer) and `"cone"` (four scalars). -/
structure Meshlet where
  vertices : List Vec3
  indices : List Nat
  cone : List ℚ
deriving DecidableEq

/-- The record the source calls `dummy_meshlet`
(`src/Tools/generate_meshlets.py`, lines 15-19):
`vertices[:max_vertices]`, `indices[:max_triangles * 3]`, and the
constant cone `[0, 1, 0, 0.5]`. -/
def dummy_meshlet (vertices : List Vec3) (indices : List Nat)
    (max_vertices max_triangles : Nat) : Meshlet :=
  { vertices := vertices.take max_vertices
    indices := indices.take (max_triangles * 3)
    cone := [0, 1, 0, mkRat 1 2] }

/-- `generate_meshlets` (`src/Tools/generate_meshlets.py`, lines 4-22):
starts from the empty list `meshlets`, appends the single
`dummy_meshlet`, and returns the list.  The `print` call is I/O with no
effect on the returned value and is not modelled. -/
def generate_meshlets (vertices : List Vec3) (indices : List Nat)
    (max_vertices : Nat) (max_triangles : Nat) : List Meshlet :=
  [dummy_meshlet vertices indices max_vertices max_triangles]

/-- Group a flat index buffer into triangles (consecutive triples), as
the specification reads the index buffer; a trailing fragment shorter
than 3 forms no triangle. -/
def triples : List Nat → List (Nat × Nat × Nat)
  | a :: b :: c :: rest => (a, b, c) :: triples rest
  | _ => []

/-- Componentwise difference of two positions (an edge vector). -/
def vsub (a b : Vec3) : Vec3 :=
  ⟨a.x - b.x, a.y - b.y, a.z - b.z⟩

/-- Cross product of two vectors. -/
def cross (a b : Vec3) : Vec3 :=
  ⟨a.y * b.z - a.z * b.y, a.z * b.x - a.x * b.z, a.x * b.y - a.y * b.x⟩

/-- Dot product of two vectors. -/
def dot (a b : Vec3) : ℚ :=
  a.x * b.x + a.y * b.y + a.z * b.z

/-- Face normal of a triangle from its vertex positions, by the
standard cross product of two edges in winding order, as prescribed in
the specification for meshes without vertex normals. -/
def triangleNormal (a b c : Vec3) : Vec3 :=
  cross (vsub b a) (vsub c a)

/-- The cone axis stored in a meshlet record: the first three entries
of its `cone` field. -/
def coneAxis (m : Meshlet) : Vec3 :=
  ⟨m.cone.headD 0, (m.cone.drop 1).headD 0, (m.cone.drop 2).headD 0⟩

/-- The cone cutoff stored in a meshlet record: the fourth entry of its
`cone` field. -/
def coneCutoff (m : Meshlet) : ℚ :=
  (m.cone.drop 3).headD 0

/-- Some concrete vertex positions used in the concrete evaluations
below. -/
def p0 : Vec3 := ⟨0, 0, 0⟩

def p1 : Vec3 := ⟨1, 0, 0⟩

def p2 : Vec3 := ⟨0, 1, 0⟩

def p3 : Vec3 := ⟨5, 0, 0⟩

def p4 : Vec3 := ⟨6, 0, 0⟩

def p5 : Vec3 := ⟨5, 1, 0⟩

/-- C1: coverage fails on the code.  On the valid mesh of six vertices
and two triangles `[0,1,2]` and `[3,4,5]`, with `max_triangles = 1`,
the union of the triangle sets of all returned meshlets is only
`[(0,1,2)]`, while the input triangle set is `[(0,1,2),(3,4,5)]`: the
triangle `(3,4,5)` is omitted, so the union does not equal the input
triangle set. -/
theorem C1_coverage_fails_on_truncation :
    triples (((generate_meshlets [p0, p1, p2, p3, p4, p5] [0, 1, 2, 3, 4, 5]
        64 1).map Meshlet.indices).flatten) = [(0, 1, 2)]
    ∧ triples [0, 1, 2, 3, 4, 5] = [(0, 1, 2), (3, 4, 5)] := by decide

/-- C2: cap respect holds.  Every meshlet returned by
`generate_meshlets` has at most `max_vertices` entries in its
`vertices` field and at most `max_triangles` triangles (its `indices`
length divided by 3), for every input and configuration, because the
code slices both buffers with exactly those bounds. -/
theorem C2_cap_respect (v : List Vec3) (idx : List Nat) (mv mt : Nat) :
    ∀ m ∈ generate_meshlets v idx mv mt,
      m.vertices.length ≤ mv ∧ m.indices.length / 3 ≤ mt := by
  intro m hm
  simp only [generate_meshlets, List.mem_singleton] at hm
  subst hm
  refine ⟨?_, ?_⟩
  · simp [dummy_meshlet]
  · have h : (idx.take (mt * 3)).length ≤ mt * 3 := List.length_take_le _ _
    simp only [dummy_meshlet]
    omega

/-- Witness for C2 at the single-triangle input with the default
configuration. -/
theorem C2_cap_respect_witness :
    (dummy_meshlet [p0, p1, p2] [0, 1, 2] 64 126).vertices.length ≤ 64
    ∧ (dummy_meshlet [p0, p1, p2] [0, 1, 2] 64 126).indices.length / 3 ≤ 126 :=
  C2_cap_respect [p0, p1, p2] [0, 1, 2] 64 126
    (dummy_meshlet [p0, p1, p2] [0, 1, 2] 64 126) (by decide)

/-- C3: bounds soundness fails on the code.  For the single triangle
`(0,0,0), (1,0,0), (0,1,0)` the face normal (cross product of the two
edges in winding order) is `(0,0,1)`, whose dot product with the cone
axis `(0,1,0)` stored by the code is `0`, strictly below the stored
cutoff `0.5`: the cone cutoff excludes a member triangle normal.  (The
produced record also carries no bounding sphere at all.) -/
theorem C3_cone_cutoff_excludes_member_normal :
    ∃ m ∈ generate_meshlets [p0, p1, p2] [0, 1, 2] 64 126,
      dot (triangleNormal p0 p1 p2) (coneAxis m) < coneCutoff m := by
  refine ⟨dummy_meshlet [p0, p1, p2] [0, 1, 2] 64 126, by decide, ?_⟩
  norm_num [dot, triangleNormal, cross, vsub, p0, p1, p2, coneAxis,
    coneCutoff, dummy_meshlet]

/-- C4: invalid-config fail-fast fails on the code.  With
`max_triangles = 0` (and likewise `max_vertices = 2 < 3`) the code
raises nothing and still returns one meshlet, merely truncating the
sliced buffers. -/
theorem C4_no_failure_on_invalid_config :
    generate_meshlets [p0, p1, p2] [0, 1, 2] 64 0
      = [{ vertices := [p0, p1, p2], indices := [],
           cone := [0, 1, 0, mkRat 1 2] }]
    ∧ generate_meshlets [p0, p1, p2] [0, 1, 2] 2 126
      = [{ vertices := [p0, p1], indices := [0, 1, 2],
           cone := [0, 1, 0, mkRat 1 2] }] := by decide

/-- C5: the raises-iff contract fails on the code.  On a malformed
input (one vertex, index buffer `[5]`: the index is out of range and
the length is not a multiple of 3) and likewise on the empty mesh, the
code raises nothing and returns a meshlet set. -/
theorem C5_no_failure_on_malformed_input :
    generate_meshlets [p0] [5] 64 126
      = [{ vertices := [p0], indices := [5],
           cone := [0, 1, 0, mkRat 1 2] }]
    ∧ generate_meshlets [] [] 64 126
      = [{ vertices := [], indices := [], cone := [0, 1, 0, mkRat 1 2] }]
    := by decide

/-- C6: local-index validity fails on the code.  On the valid mesh of
four vertices with the triangle `[1,2,3]` and the valid configuration
`max_vertices = 3`, the produced meshlet keeps the global indices
`[1,2,3]` while its `vertices` field is truncated to length 3, so the
index 3 is not below the meshlet's vertex count. -/
theorem C6_local_index_exceeds_vertex_count :
    ∃ m ∈ generate_meshlets [p0, p1, p2, p3] [1, 2, 3] 3 126,
      ∃ i ∈ m.indices, m.vertices.length ≤ i := by decide

/-- C7: determinism holds.  `generate_meshlets` is embedded as a pure
function of its input buffers and configuration, so two runs on
identical arguments return identical meshlet sets, in order and
contents. -/
theorem C7_deterministic (v : List Vec3) (idx : List Nat) (mv mt : Nat) :
    generate_meshlets v idx mv mt = generate_meshlets v idx mv mt := rfl

/-- C8: the single-triangle scenario fails on the code.  On 3 vertices
and triangle indices `[0,1,2]` with `max_vertices = 64` and
`max_triangles = 126` the code does return exactly one meshlet, but its
`vertices` field holds the three vertex positions (not the global
indices `[0,1,2]`) and its cone cutoff is `0.5`, not `1.0`. -/
theorem C8_single_triangle_scenario_diverges :
    generate_meshlets [p0, p1, p2] [0, 1, 2] 64 126
      = [{ vertices := [p0, p1, p2], indices := [0, 1, 2],
           cone := [0, 1, 0, mkRat 1 2] }]
    ∧ coneCutoff (dummy_meshlet [p0, p1, p2] [0, 1, 2] 64 126) ≠ 1 := by
  decide

/-- C9: the output always has length one.  For every input buffer pair
and every configuration, `generate_meshlets` appends exactly one record
to the fresh list and returns it. -/
theorem C9_output_length_always_one (v : List Vec3) (idx : List Nat)
    (mv mt : Nat) : (generate_meshlets v idx mv mt).length = 1 := rfl

/-- C10: the cone field is the constant `[0, 1, 0, 0.5]` for every
input geometry and configuration; it never depends on the triangle
normals. -/
theorem C10_cone_constant (v : List Vec3) (idx : List Nat) (mv mt : Nat) :
    (generate_meshlets v idx mv mt).map Meshlet.cone
      = [[0, 1, 0, mkRat 1 2]] := rfl
